import Mathlib

/-!
Shallow embedding of `src/lib/request-manager.js` (a Node.js REST client
runtime): the dynamic-operation factory (`describe`), the token manager
(`generateAccessToken`, `refreshAccessToken`), the request builder
(`buildRequest`) and the executor (`exec`), together with theorems settling
the specification claims about them.

JavaScript values are modelled by the inductive `JsValue`; JS truthiness,
`typeof`, string coercion, property lookup and property assignment are
modelled explicitly.  The external collaborators (configuration store,
schema validator, HTTP transport) are parameters, exactly as the spec
declares them out of scope.
-/

set_option autoImplicit false

namespace RequestManager

/-- A JavaScript value, as far as the request manager manipulates them.
Objects are association lists of fields; callbacks are opaque ids. -/
inductive JsValue where
  | undefined
  | nullV
  | boolV (b : Bool)
  | numV (n : Int)
  | strV (s : String)
  | obj (fields : List (String × JsValue))
  | func (id : Nat)
deriving Repr

/-- JS truthiness: `undefined`, `null`, `false`, `0` and `""` are falsy;
every object and function is truthy. -/
def jsTruthy : JsValue → Bool
  | JsValue.undefined => false
  | JsValue.nullV => false
  | JsValue.boolV b => b
  | JsValue.numV n => n != 0
  | JsValue.strV s => s != ""
  | JsValue.obj _ => true
  | JsValue.func _ => true

/-- JS `typeof` (note `typeof null == 'object'`). -/
def jsTypeof : JsValue → String
  | JsValue.undefined => "undefined"
  | JsValue.nullV => "object"
  | JsValue.boolV _ => "boolean"
  | JsValue.numV _ => "number"
  | JsValue.strV _ => "string"
  | JsValue.obj _ => "object"
  | JsValue.func _ => "function"

/-- JS string coercion, as used by `String.prototype.replace` with a
non-string replacement value. -/
def jsToString : JsValue → String
  | JsValue.undefined => "undefined"
  | JsValue.nullV => "null"
  | JsValue.boolV true => "true"
  | JsValue.boolV false => "false"
  | JsValue.numV n => toString n
  | JsValue.strV s => s
  | JsValue.obj _ => "[object Object]"
  | JsValue.func _ => "function"

/-- JS property read `v[k]`: `undefined` on a missing field or a non-object. -/
def jsGetField (v : JsValue) (k : String) : JsValue :=
  match v with
  | JsValue.obj fields =>
    match fields.lookup k with
    | some w => w
    | none => JsValue.undefined
  | _ => JsValue.undefined

/-- JS property write on an object's field list: overwrite the existing
field, else append a new one. -/
def setFieldList : List (String × JsValue) → String → JsValue → List (String × JsValue)
  | [], k, v => [(k, v)]
  | (k', v') :: rest, k, v =>
    if k' == k then (k', v) :: rest else (k', v') :: setFieldList rest k v

/-- JS property write `v[k] = w`: mutates objects, is a no-op on the rest. -/
def jsSetField (v : JsValue) (k : String) (w : JsValue) : JsValue :=
  match v with
  | JsValue.obj fields => JsValue.obj (setFieldList fields k w)
  | _ => v

/-- The character class of the placeholder regex
`/(\:[a-z|A-Z|\_|\-]*)/g` at line 29 of the source: lowercase and
uppercase letters, the pipe (literally, from the misused alternation bars),
underscore and hyphen.  Digits are NOT in the class. -/
def placeholderChar (c : Char) : Bool :=
  ('a' ≤ c && c ≤ 'z') || ('A' ≤ c && c ≤ 'Z') || c == '|' || c == '_' || c == '-'

theorem length_dropWhile_le {α : Type} (p : α → Bool) :
    (l : List α) → (l.dropWhile p).length ≤ l.length
  | [] => Nat.le_refl _
  | c :: rest => by
    rw [List.dropWhile_cons]
    cases hc : p c
    · simp
    · simpa using Nat.le_succ_of_le (length_dropWhile_le p rest)

/-- All matches, with the `g` flag, of a regex of the form `:C*` for a
character class `C` not containing the colon: scanning left to right, every
`':'` starts a match consisting of the colon and the maximal following run
of `C`-characters.  The `fuel` argument (instantiated with the string's
length, which always suffices) only makes the recursion structural. -/
def matchAllAux (cls : Char → Bool) : Nat → List Char → List (List Char)
  | _, [] => []
  | 0, _ :: _ => []
  | fuel + 1, c :: rest =>
    if c == ':' then
      (':' :: rest.takeWhile cls) :: matchAllAux cls fuel (rest.dropWhile cls)
    else
      matchAllAux cls fuel rest

/-- `options.path.match(/(\:[a-z|A-Z|\_|\-]*)/g) || []` (source line 29). -/
def pathParams (s : String) : List String :=
  (matchAllAux placeholderChar s.data.length s.data).map (fun l => String.mk l)

/-- Modelled from the spec (claim C6): the character class the spec
describes for placeholder names — letters, DIGITS, underscore, hyphen. -/
def specPlaceholderChar (c : Char) : Bool :=
  ('a' ≤ c && c ≤ 'z') || ('A' ≤ c && c ≤ 'Z') || ('0' ≤ c && c ≤ '9') || c == '_' || c == '-'

/-- Modelled from the spec (claim C6): placeholder extraction as the spec
words it, a colon followed by a run of letters, digits, underscores and
hyphens. -/
def specPathParams (s : String) : List String :=
  (matchAllAux specPlaceholderChar s.data.length s.data).map (fun l => String.mk l)

/-- `String.prototype.replace` with a string pattern: replace the first
occurrence only. -/
def replaceFirstAux (pat repl : List Char) : List Char → List Char
  | [] => if pat.isEmpty then repl else []
  | c :: rest =>
    if pat.isPrefixOf (c :: rest) then repl ++ (c :: rest).drop pat.length
    else c :: replaceFirstAux pat repl rest

/-- JS `s.replace(pat, repl)` for a string pattern `pat`. -/
def replaceFirst (s pat repl : String) : String :=
  String.mk (replaceFirstAux pat.data repl.data s.data)

/-- JS `s.replace(/\:/g, '')`: delete every colon. -/
def stripColons (s : String) : String :=
  String.mk (s.data.filter (fun c => c != ':'))

/-- `Array.prototype.join(', ')`. -/
def joinComma : List String → String
  | [] => ""
  | [x] => x
  | x :: xs => x ++ ", " ++ joinComma xs

/-- The process-wide configuration store (external collaborator, module
`./configurations`): plain getters and setters.  Credential and token
slots hold arbitrary JS values, `undefined` when never set. -/
structure Configurations where
  baseUrl : String
  userAgent : String
  clientId : JsValue
  clientSecret : JsValue
  accessToken : JsValue
  refreshToken : JsValue

/-- The schema-validation engine (external collaborator, module
`./validation`), passed in opaquely. -/
structure Validation where
  validate : JsValue → JsValue → List String
  generateErrorMessage : List String → String

/-- `requestManager.JSON_MIME_TYPE`. -/
def JSON_MIME_TYPE : String := "application/json"

/-- `requestManager.FORM_MIME_TYPE`. -/
def FORM_MIME_TYPE : String := "application/x-www-form-urlencoded"

/-- The options object handed to `exec`/`buildRequest`. -/
structure ExecOptions where
  path : String
  method : String
  payload : JsValue
  schema : Option JsValue
  headers : Option (List (String × String))

/-- The wire request handed to the `request` transport library.
`qs` is the query-string object as it stands when `buildRequest` returns
(after `request.qs.access_token = ...`); `json` is `true` for requests whose
body is not JSON, else the payload itself; `form` is the form-encoded body
when present. -/
structure WireRequest where
  uri : String
  method : String
  headers : List (String × String)
  qs : JsValue
  json : JsValue
  form : Option JsValue
  strictSSL : Bool

/-- `options.headers ? (options.headers[key] || dflt) : dflt` — the header
override lookup with its JS falsy-to-default behaviour. -/
def headerLookup (headers : Option (List (String × String))) (key dflt : String) : String :=
  match headers with
  | none => dflt
  | some hs =>
    match hs.lookup key with
    | some v => if v != "" then v else dflt
    | none => dflt

/-- `requestManager.buildRequest` (source lines 150-188).  Returns the wire
request together with the contents of `options.payload` AFTER the call: for
GET requests `request.qs` IS the payload object (line 164 assigns the
reference), so the trailing `request.qs.access_token = ...` (line 183) also
mutates the caller's payload, and the two components returned here are the
same object.  Throws (as `Except.error`) the validation error message when a
schema is present and violated. -/
def buildRequest (cfg : Configurations) (validation : Validation) (options : ExecOptions) :
    Except String (WireRequest × JsValue) :=
  let uri := cfg.baseUrl ++ options.path
  let accept := headerLookup options.headers "accept" JSON_MIME_TYPE
  let contentType := headerLookup options.headers "content-type" JSON_MIME_TYPE
  let headers := [("user-agent", cfg.userAgent), ("accept", accept), ("content-type", contentType)]
  if options.method == "GET" then
    let qsAfter := jsSetField options.payload "access_token" cfg.accessToken
    Except.ok (WireRequest.mk uri options.method headers qsAfter (JsValue.boolV true) none true,
               qsAfter)
  else
    if contentType == JSON_MIME_TYPE then
      let validated : Except String Unit :=
        match options.schema with
        | some schema =>
          let errors := validation.validate schema options.payload
          if errors.length > 0 then Except.error (validation.generateErrorMessage errors)
          else Except.ok ()
        | none => Except.ok ()
      match validated with
      | Except.error e => Except.error e
      | Except.ok _ =>
        let qsAfter := jsSetField (JsValue.obj []) "access_token" cfg.accessToken
        Except.ok (WireRequest.mk uri options.method headers qsAfter options.payload none true,
                   options.payload)
    else
      let qsAfter := jsSetField (JsValue.obj []) "access_token" cfg.accessToken
      Except.ok (WireRequest.mk uri options.method headers qsAfter (JsValue.boolV true)
                   (some options.payload) true,
                 options.payload)

/-- What the transport (`request(req, cb)`) hands back: a transport-level
error, or a status code with a parsed body. -/
inductive TransportOutcome where
  | err (message : String)
  | resp (statusCode : Int) (body : JsValue)

/-- The opaque HTTP transport. -/
def Transport : Type := WireRequest → TransportOutcome

/-- A success delivered through the completion: `{status, body}`
(source lines 212-215). -/
structure Success where
  status : Int
  body : JsValue
deriving Repr

/-- `body.message ? body.message : 'Unknown Error'` (source line 210). -/
def bodyMessage (body : JsValue) : String :=
  let m := jsGetField body "message"
  if jsTruthy m then jsToString m else "Unknown Error"

/-- The observable outcome of one `exec` call: the value delivered through
the completion, how many transport calls were made, and the contents of the
caller's payload object after the call. -/
structure ExecOutcome where
  result : Except String Success
  transportCalls : Nat
  payloadAfter : JsValue

/-- `requestManager.exec` (source lines 195-219): build the request,
delivering build-time throws through the completion; send it; classify the
response — transport error as-is, status outside [200, 300) as an error with
`bodyMessage`, otherwise success `{status, body}`. -/
def exec (cfg : Configurations) (validation : Validation) (transport : Transport)
    (options : ExecOptions) : ExecOutcome :=
  match buildRequest cfg validation options with
  | Except.error e => ExecOutcome.mk (Except.error e) 0 options.payload
  | Except.ok (req, payloadAfter) =>
    match transport req with
    | TransportOutcome.err m => ExecOutcome.mk (Except.error m) 1 payloadAfter
    | TransportOutcome.resp statusCode body =>
      if statusCode < 200 ∨ 300 ≤ statusCode then
        ExecOutcome.mk (Except.error (bodyMessage body)) 1 payloadAfter
      else
        ExecOutcome.mk (Except.ok (Success.mk statusCode body)) 1 payloadAfter

/-- The outcome of one token-manager call: the value delivered through the
completion (the access token on success), the configuration store after the
call, and how many transport calls were made. -/
structure TokenOutcome where
  result : Except String JsValue
  cfgAfter : Configurations
  transportCalls : Nat

/-- The payload of the client-credentials exchange (source lines 98-102). -/
def clientCredentialsPayload (cfg : Configurations) : JsValue :=
  JsValue.obj [("client_id", cfg.clientId), ("client_secret", cfg.clientSecret),
               ("grant_type", JsValue.strV "client_credentials")]

/-- The payload of the refresh exchange (source lines 128-131): the CURRENT
ACCESS TOKEN under the `client_secret` key, plus the grant type.  The stored
refresh token appears nowhere in it. -/
def refreshPayload (cfg : Configurations) : JsValue :=
  JsValue.obj [("client_secret", cfg.accessToken),
               ("grant_type", JsValue.strV "refresh_token")]

/-- `requestManager.generateAccessToken` (source lines 87-114): return the
stored token if truthy; fail without I/O when client id or secret is falsy;
otherwise run the client-credentials exchange through `exec`, store both
returned tokens, and deliver the new access token. -/
def generateAccessToken (cfg : Configurations) (validation : Validation)
    (transport : Transport) : TokenOutcome :=
  if jsTruthy cfg.accessToken then
    TokenOutcome.mk (Except.ok cfg.accessToken) cfg 0
  else if !jsTruthy cfg.clientId || !jsTruthy cfg.clientSecret then
    TokenOutcome.mk (Except.error "Must set client_id and client_secret") cfg 0
  else
    let out := exec cfg validation transport
      (ExecOptions.mk "/oauth/token" "POST" (clientCredentialsPayload cfg) none none)
    match out.result with
    | Except.error e =>
      TokenOutcome.mk (Except.error ("Error getting the access_token: " ++ e)) cfg
        out.transportCalls
    | Except.ok resp =>
      let newAccess := jsGetField resp.body "access_token"
      let newRefresh := jsGetField resp.body "refresh_token"
      TokenOutcome.mk (Except.ok newAccess)
        (Configurations.mk cfg.baseUrl cfg.userAgent cfg.clientId cfg.clientSecret
          newAccess newRefresh)
        out.transportCalls

/-- `requestManager.refreshAccessToken` (source lines 121-143): fail without
I/O when no refresh token is stored; otherwise run the refresh exchange with
`refreshPayload`, store both returned tokens, and deliver the new access
token. -/
def refreshAccessToken (cfg : Configurations) (validation : Validation)
    (transport : Transport) : TokenOutcome :=
  if !jsTruthy cfg.refreshToken then
    TokenOutcome.mk (Except.error "You need the refresh_token to refresh the access_token") cfg 0
  else
    let out := exec cfg validation transport
      (ExecOptions.mk "/oauth/token" "POST" (refreshPayload cfg) none none)
    match out.result with
    | Except.error e =>
      TokenOutcome.mk (Except.error ("Error refreshing previous access_token: " ++ e)) cfg
        out.transportCalls
    | Except.ok resp =>
      let newAccess := jsGetField resp.body "access_token"
      let newRefresh := jsGetField resp.body "refresh_token"
      TokenOutcome.mk (Except.ok newAccess)
        (Configurations.mk cfg.baseUrl cfg.userAgent cfg.clientId cfg.clientSecret
          newAccess newRefresh)
        out.transportCalls

/-- The endpoint descriptor captured by the closure `describe` returns:
its `path` template and `method`.  The closure mutates `path` in place
during substitution (source lines 42 and 52), so the binding step below
returns the descriptor as it stands after the call. -/
structure Options where
  path : String
  method : String
deriving Repr

/-- The synchronous part of a generated operation's run: either a throw, or
the go-ahead with the payload to send. -/
inductive BindOutcome where
  | thrown (message : String)
  | proceed (payload : JsValue)
deriving Repr

/-- The GET/DELETE substitution loop (source lines 41-43):
`options.path = options.path.replace(param, _arguments[index])` for each
placeholder, argument `i` filling placeholder `i`. -/
def substPositional (args : List JsValue) : List String → Nat → String → String
  | [], _, path => path
  | p :: ps, i, path =>
    substPositional args ps (i + 1)
      (replaceFirst path p (jsToString (args.getD i JsValue.undefined)))

/-- The POST/PUT substitution loop (source lines 48-56): substitute each
placeholder whose same-named payload property is truthy, collect the rest
(colon stripped) as missing. -/
def substPayload (payload : JsValue) : List String → String → List String → String × List String
  | [], path, missing => (path, missing)
  | p :: ps, path, missing =>
    let property := replaceFirst p ":" ""
    if jsTruthy payload && jsTruthy (jsGetField payload property) then
      substPayload payload ps (replaceFirst path p (jsToString (jsGetField payload property)))
        missing
    else
      substPayload payload ps path (missing ++ [property])

/-- The argument-binding phase of the closure returned by
`requestManager.describe` (source lines 19-61): callback check, placeholder
extraction, payload selection, and positional (GET/DELETE) or payload-based
(other methods) path substitution.  Returns the descriptor as mutated by the
call together with the outcome. -/
def bindCall (options : Options) (args : List JsValue) : Options × BindOutcome :=
  let callback := args.getLastD JsValue.undefined
  if jsTypeof callback != "function" then
    (options, BindOutcome.thrown "Callback is required")
  else
    let pathParameters := pathParams options.path
    let secondToLast := if 2 ≤ args.length then args.getD (args.length - 2) JsValue.undefined
                        else JsValue.undefined
    let payload := if jsTypeof secondToLast == "object" then secondToLast else JsValue.obj []
    if options.method == "GET" || options.method == "DELETE" then
      if pathParameters.length + 1 > args.length then
        (options, BindOutcome.thrown
          ("Expecting parameters: " ++ stripColons (joinComma pathParameters)))
      else
        (Options.mk (substPositional args pathParameters 0 options.path) options.method,
         BindOutcome.proceed payload)
    else
      let sub := substPayload payload pathParameters options.path []
      if sub.2.length > 0 then
        (Options.mk sub.1 options.method, BindOutcome.thrown
          ("The JSON is missing the following properties: " ++ joinComma sub.2))
      else
        (Options.mk sub.1 options.method, BindOutcome.proceed payload)

/-- The observable outcome of invoking a generated operation once: the
descriptor after the call, the synchronous throw if any, the value delivered
through the completion if any, the configuration store after the call, and
the transport calls made by the token exchange and by the main request. -/
structure InvokeOutcome where
  optionsAfter : Options
  thrown : Option String
  delivered : Option (Except String Success)
  cfgAfter : Configurations
  tokenTransportCalls : Nat
  mainTransportCalls : Nat

/-- One full invocation of the closure returned by `requestManager.describe`
(source lines 19-80): bind arguments, then `generateAccessToken`, then
`exec` on the substituted path with the descriptor's schema. -/
def invokeOperation (options : Options) (schema : Option JsValue) (cfg : Configurations)
    (validation : Validation) (transport : Transport) (args : List JsValue) : InvokeOutcome :=
  match bindCall options args with
  | (optionsAfter, BindOutcome.thrown m) =>
    InvokeOutcome.mk optionsAfter (some m) none cfg 0 0
  | (optionsAfter, BindOutcome.proceed payload) =>
    let gen := generateAccessToken cfg validation transport
    match gen.result with
    | Except.error e =>
      InvokeOutcome.mk optionsAfter none (some (Except.error e)) gen.cfgAfter
        gen.transportCalls 0
    | Except.ok _ =>
      let out := exec gen.cfgAfter validation transport
        (ExecOptions.mk optionsAfter.path optionsAfter.method payload schema none)
      InvokeOutcome.mk optionsAfter none (some out.result) gen.cfgAfter
        gen.transportCalls out.transportCalls

/-!
Interleaving model of concurrent `generateAccessToken` calls.  The source
decides whether to start an exchange solely from the store's current access
token (line 88) and only writes the store when the exchange's `exec`
callback later fires (lines 107-108); there is no in-flight marker of any
kind.  An `invoke` event runs the synchronous prefix of
`generateAccessToken` for one caller; a `complete` event runs the `exec`
callback of that caller's exchange with the response the server sent it.
-/

/-- Shared state seen by concurrently racing `generateAccessToken` calls:
the store's token slots and credentials, how many exchanges have been
started, which callers' exchanges are still in flight, and what each caller
was eventually handed. -/
structure TokenRaceState where
  accessToken : JsValue
  refreshToken : JsValue
  clientId : JsValue
  clientSecret : JsValue
  exchangesStarted : Nat
  pending : List Nat
  delivered : List (Nat × Except String JsValue)
deriving Repr

/-- One scheduler event: a caller invokes `generateAccessToken`, or a
caller's in-flight exchange completes with the given response body tokens. -/
inductive TokenEvent where
  | invoke (caller : Nat)
  | complete (caller : Nat) (accessTok refreshTok : JsValue)

/-- Run one event against the shared state, following the source's branch
structure exactly: an invoking caller that sees a truthy stored token is
answered from the store; one that sees falsy credentials is answered with
the configuration error; otherwise it starts its own exchange — nothing in
the source lets it join an exchange already in flight. -/
def tokenRaceStep (st : TokenRaceState) : TokenEvent → TokenRaceState
  | TokenEvent.invoke c =>
    if jsTruthy st.accessToken then
      TokenRaceState.mk st.accessToken st.refreshToken st.clientId st.clientSecret
        st.exchangesStarted st.pending (st.delivered ++ [(c, Except.ok st.accessToken)])
    else if !jsTruthy st.clientId || !jsTruthy st.clientSecret then
      TokenRaceState.mk st.accessToken st.refreshToken st.clientId st.clientSecret
        st.exchangesStarted st.pending
        (st.delivered ++ [(c, Except.error "Must set client_id and client_secret")])
    else
      TokenRaceState.mk st.accessToken st.refreshToken st.clientId st.clientSecret
        (st.exchangesStarted + 1) (st.pending ++ [c]) st.delivered
  | TokenEvent.complete c accessTok refreshTok =>
    if st.pending.contains c then
      TokenRaceState.mk accessTok refreshTok st.clientId st.clientSecret
        st.exchangesStarted (st.pending.filter (fun x => x != c))
        (st.delivered ++ [(c, Except.ok accessTok)])
    else
      st

/-- Run a whole schedule. -/
def tokenRaceRun (events : List TokenEvent) (st : TokenRaceState) : TokenRaceState :=
  events.foldl tokenRaceStep st

/-- Modelled from the spec (claim C3): the placeholder names left unfilled
by the supplied positional arguments — the placeholders beyond the first
`positional` ones, in template order, colon stripped. -/
def specUnfilledNames (path : String) (positional : Nat) : List String :=
  ((pathParams path).drop positional).map (fun p => stripColons p)

/-- Modelled from the spec (claim C9): the error message of a non-2xx
response is the body's `message` field whenever that field is PRESENT, else
"Unknown Error". -/
def specBodyMessage (body : JsValue) : String :=
  match body with
  | JsValue.obj fields =>
    match fields.lookup "message" with
    | some m => jsToString m
    | none => "Unknown Error"
  | _ => "Unknown Error"

/-!  Concrete collaborators used to evaluate the embedded code. -/

/-- A validator that accepts every payload (test double). -/
def alwaysValid : Validation :=
  Validation.mk (fun _ _ => []) (fun es => joinComma es)

/-- A validator that rejects every payload with one error (test double). -/
def alwaysInvalid : Validation :=
  Validation.mk (fun _ _ => ["name is required"]) (fun es => joinComma es)

/-- A transport answering 404 with a present-but-empty `message` field
(test double). -/
def emptyMessageTransport : Transport := fun _ =>
  TransportOutcome.resp 404 (JsValue.obj [("message", JsValue.strV "")])

/-- A store with no credentials and no tokens (test double). -/
def emptyCfg : Configurations :=
  Configurations.mk "https://api" "ua" JsValue.undefined JsValue.undefined
    JsValue.undefined JsValue.undefined

/-- A transport that always answers 200 with a fresh token pair
(test double). -/
def tokenTransport : Transport := fun _ =>
  TransportOutcome.resp 200
    (JsValue.obj [("access_token", JsValue.strV "NA"), ("refresh_token", JsValue.strV "NR")])

/-- A store holding credentials but no tokens yet (test double). -/
def freshCfg : Configurations :=
  Configurations.mk "https://api" "ua" (JsValue.strV "cid") (JsValue.strV "csec")
    JsValue.undefined JsValue.undefined

/-- A store holding an access token `"A"` and a refresh token `"R"`
(test double). -/
def refreshCfg : Configurations :=
  Configurations.mk "https://api" "ua" JsValue.undefined JsValue.undefined
    (JsValue.strV "A") (JsValue.strV "R")

/-- A store holding an access token but no refresh token (test double). -/
def noRefreshCfg : Configurations :=
  Configurations.mk "https://api" "ua" JsValue.undefined JsValue.undefined
    (JsValue.strV "A") JsValue.undefined

/-- The race start state for two callers: no token stored, valid
credentials configured. -/
def raceStart : TokenRaceState :=
  TokenRaceState.mk JsValue.undefined JsValue.undefined (JsValue.strV "cid")
    (JsValue.strV "csec") 0 [] []

/-- The schedule in which both callers invoke `generateAccessToken` before
either exchange completes, and the server answers them with distinct
tokens. -/
def raceSchedule : List TokenEvent :=
  [TokenEvent.invoke 0, TokenEvent.invoke 1,
   TokenEvent.complete 0 (JsValue.strV "T0") (JsValue.strV "R0"),
   TokenEvent.complete 1 (JsValue.strV "T1") (JsValue.strV "R1")]

/-!  Helper lemmas. -/

theorem count_takeWhile_colon (cls : Char → Bool) (hcls : cls ':' = false) (l : List Char) :
    (l.takeWhile cls).count ':' = 0 := by
  rw [List.count_eq_zero]
  intro hmem
  have hc := List.mem_takeWhile_imp hmem
  rw [hcls] at hc
  exact Bool.false_ne_true hc

theorem matchAllAux_length (cls : Char → Bool) (hcls : cls ':' = false) :
    ∀ (fuel : Nat) (l : List Char), l.length ≤ fuel →
      (matchAllAux cls fuel l).length = l.count ':' := by
  intro fuel
  induction fuel with
  | zero =>
    intro l hl
    cases l with
    | nil => rfl
    | cons c rest => simp at hl
  | succ fuel ih =>
    intro l hl
    cases l with
    | nil => rfl
    | cons c rest =>
      by_cases hc : c = ':'
      · subst hc
        have hd : (rest.dropWhile cls).length ≤ fuel :=
          le_trans (length_dropWhile_le cls rest) (Nat.le_of_succ_le_succ hl)
        have hsplit : rest.count ':' =
            (rest.takeWhile cls).count ':' + (rest.dropWhile cls).count ':' := by
          conv_lhs => rw [← List.takeWhile_append_dropWhile (p := cls) (l := rest)]
          rw [List.count_append]
        simp only [matchAllAux, beq_self_eq_true, if_true, List.length_cons]
        rw [ih _ hd, List.count_cons_self, hsplit, count_takeWhile_colon cls hcls]
        omega
      · have hrest : rest.length ≤ fuel := Nat.le_of_succ_le_succ hl
        have hcb : (c == ':') = false := beq_eq_false_iff_ne.mpr hc
        simp only [matchAllAux, hcb, Bool.false_eq_true, if_false]
        rw [ih _ hrest, List.count_cons_of_ne (Ne.symm hc)]

theorem matchAllAux_shape (cls : Char → Bool) :
    ∀ (fuel : Nat) (l : List Char) (p : List Char), p ∈ matchAllAux cls fuel l →
      p.head? = some ':' ∧ p.tail.all cls = true := by
  intro fuel
  induction fuel with
  | zero =>
    intro l p hp
    cases l with
    | nil => simp [matchAllAux] at hp
    | cons c rest => simp [matchAllAux] at hp
  | succ fuel ih =>
    intro l p hp
    cases l with
    | nil => simp [matchAllAux] at hp
    | cons c rest =>
      simp only [matchAllAux] at hp
      by_cases hc : (c == ':') = true
      · rw [if_pos hc] at hp
        rcases List.mem_cons.mp hp with hp | hp
        · subst hp
          refine ⟨rfl, ?_⟩
          simp only [List.tail_cons]
          rw [List.all_eq_true]
          intro x hx
          exact List.mem_takeWhile_imp hx
        · exact ih _ _ hp
      · rw [if_neg hc] at hp
        exact ih _ _ hp

theorem lookup_setFieldList (fields : List (String × JsValue)) (k : String) (v : JsValue) :
    (setFieldList fields k v).lookup k = some v := by
  induction fields with
  | nil => simp [setFieldList]
  | cons hd t ih =>
    obtain ⟨k', v'⟩ := hd
    by_cases hk : k' = k
    · subst hk
      simp [setFieldList]
    · have hkk : (k == k') = false := beq_eq_false_iff_ne.mpr (Ne.symm hk)
      simp [setFieldList, hk, List.lookup, hkk, ih]

end RequestManager

namespace RequestManager

/-- C1: the spec claims that N concurrent first-time calls perform exactly
one OAuth client-credentials exchange and all receive the same token.  The
code has no in-flight guard: under the schedule in which two callers both
invoke `generateAccessToken` before either exchange completes, TWO exchanges
are started, the callers receive DIFFERENT tokens, and the store ends up
with whichever response arrived last. -/
theorem claim_C1_two_concurrent_calls_two_exchanges :
    (tokenRaceRun raceSchedule raceStart).exchangesStarted = 2 ∧
    (tokenRaceRun raceSchedule raceStart).delivered =
      [(0, Except.ok (JsValue.strV "T0")), (1, Except.ok (JsValue.strV "T1"))] ∧
    (tokenRaceRun raceSchedule raceStart).accessToken = JsValue.strV "T1" ∧
    JsValue.strV "T0" ≠ JsValue.strV "T1" := by
  refine ⟨rfl, rfl, rfl, ?_⟩
  intro h
  exact absurd (JsValue.strV.inj h) (by decide)

/-- C2: evaluated on a store holding access token `"A"` and refresh token
`"R"`, the refresh exchange's payload carries the CURRENT ACCESS TOKEN under
`client_secret` and no `refresh_token` field at all, contradicting the
claim's wire shape; the claim's other parts hold: with no stored refresh
token the call fails immediately with the descriptive error and zero
transport calls, and on success both stored tokens are replaced from the
response body. -/
theorem claim_C2_refresh_payload_evaluated :
    jsGetField (refreshPayload refreshCfg) "client_secret" = JsValue.strV "A" ∧
    jsGetField (refreshPayload refreshCfg) "refresh_token" = JsValue.undefined ∧
    jsGetField (refreshPayload refreshCfg) "grant_type" = JsValue.strV "refresh_token" ∧
    (refreshAccessToken noRefreshCfg alwaysValid tokenTransport).result =
      Except.error "You need the refresh_token to refresh the access_token" ∧
    (refreshAccessToken noRefreshCfg alwaysValid tokenTransport).transportCalls = 0 ∧
    (refreshAccessToken refreshCfg alwaysValid tokenTransport).cfgAfter.accessToken =
      JsValue.strV "NA" ∧
    (refreshAccessToken refreshCfg alwaysValid tokenTransport).cfgAfter.refreshToken =
      JsValue.strV "NR" :=
  ⟨rfl, rfl, rfl, rfl, rfl, rfl, rfl⟩

/-- C4: the spec claims substitution happens on a copy of the path template
and the descriptor's `path` field is unchanged by an invocation.  The code
assigns `options.path = options.path.replace(...)` in place: after a first
call of `/users/:id` with argument `42` the captured descriptor's path is
`/users/42`, not the template, and a second call finds no placeholder left
to substitute. -/
theorem claim_C4_template_mutated_in_place :
    (bindCall (Options.mk "/users/:id" "GET") [JsValue.numV 42, JsValue.func 0]).1.path =
      "/users/42" ∧
    ("/users/42" : String) ≠ "/users/:id" ∧
    (bindCall (Options.mk "/users/42" "GET") [JsValue.numV 7, JsValue.func 0]).1.path =
      "/users/42" :=
  ⟨rfl, by decide, rfl⟩

/-- C5: any invocation whose last argument is absent or not callable throws
`Callback is required` synchronously: the completion is never invoked, the
descriptor is untouched, the store is untouched, and neither the token
exchange nor the transport runs. -/
theorem claim_C5_missing_callback (options : Options) (schema : Option JsValue)
    (cfg : Configurations) (validation : Validation) (transport : Transport)
    (args : List JsValue)
    (h : jsTypeof (args.getLastD JsValue.undefined) ≠ "function") :
    invokeOperation options schema cfg validation transport args =
      InvokeOutcome.mk options (some "Callback is required") none cfg 0 0 := by
  have hb : (jsTypeof (args.getLastD JsValue.undefined) != "function") = true := by
    simpa using h
  unfold invokeOperation bindCall
  rw [if_pos hb]

/-- C5 witness: a concrete call with no callback at all. -/
theorem claim_C5_missing_callback_witness :
    invokeOperation (Options.mk "/users/:id" "GET") none freshCfg alwaysValid tokenTransport
      [JsValue.numV 42] =
      InvokeOutcome.mk (Options.mk "/users/:id" "GET") (some "Callback is required") none
        freshCfg 0 0 :=
  claim_C5_missing_callback (Options.mk "/users/:id" "GET") none freshCfg alwaysValid
    tokenTransport [JsValue.numV 42] (by decide)

/-- C8: when the store already holds a (truthy) access token,
`generateAccessToken` returns it at once — no transport call, store
unchanged; when it holds none and the client id or client secret is missing
(falsy), it fails with the configuration error, again without any transport
call. -/
theorem claim_C8_token_fast_paths (cfg : Configurations) (validation : Validation)
    (transport : Transport) :
    (jsTruthy cfg.accessToken = true →
      generateAccessToken cfg validation transport =
        TokenOutcome.mk (Except.ok cfg.accessToken) cfg 0) ∧
    (jsTruthy cfg.accessToken = false →
      jsTruthy cfg.clientId = false ∨ jsTruthy cfg.clientSecret = false →
      generateAccessToken cfg validation transport =
        TokenOutcome.mk (Except.error "Must set client_id and client_secret") cfg 0) := by
  constructor
  · intro h
    unfold generateAccessToken
    rw [if_pos h]
  · intro h hcred
    have hc : (!jsTruthy cfg.clientId || !jsTruthy cfg.clientSecret) = true := by
      rcases hcred with hc | hc <;> simp [hc]
    unfold generateAccessToken
    rw [if_neg (by simp [h]), if_pos hc]

/-- C8 witness: a store with a token answers from the store; a store with a
missing secret fails without I/O. -/
theorem claim_C8_token_fast_paths_witness :
    generateAccessToken refreshCfg alwaysValid tokenTransport =
      TokenOutcome.mk (Except.ok refreshCfg.accessToken) refreshCfg 0 ∧
    generateAccessToken emptyCfg alwaysValid tokenTransport =
      TokenOutcome.mk (Except.error "Must set client_id and client_secret") emptyCfg 0 :=
  ⟨(claim_C8_token_fast_paths refreshCfg alwaysValid tokenTransport).1 (by decide),
   (claim_C8_token_fast_paths emptyCfg alwaysValid tokenTransport).2 (by decide)
     (Or.inl (by decide))⟩

/-- C10: for every GET intent, `buildRequest` makes the caller's payload
object itself the query-string object — the wire request's `qs` and the
payload after the call are the same object — and writes the stored access
token into it under `access_token`, so the caller's payload has gained that
field. -/
theorem claim_C10_get_payload_aliased (cfg : Configurations) (validation : Validation)
    (path : String) (schema : Option JsValue) (headers : Option (List (String × String)))
    (fields : List (String × JsValue)) :
    buildRequest cfg validation (ExecOptions.mk path "GET" (JsValue.obj fields) schema headers) =
      Except.ok
        (WireRequest.mk (cfg.baseUrl ++ path) "GET"
          [("user-agent", cfg.userAgent),
           ("accept", headerLookup headers "accept" JSON_MIME_TYPE),
           ("content-type", headerLookup headers "content-type" JSON_MIME_TYPE)]
          (JsValue.obj (setFieldList fields "access_token" cfg.accessToken))
          (JsValue.boolV true) none true,
         JsValue.obj (setFieldList fields "access_token" cfg.accessToken)) ∧
    jsGetField (JsValue.obj (setFieldList fields "access_token" cfg.accessToken))
      "access_token" = cfg.accessToken := by
  constructor
  · unfold buildRequest
    rfl
  · simp [jsGetField, lookup_setFieldList]

/-- C7 counterexample: a GET intent carrying a schema and a payload the
validator rejects (the validator reports `name is required` on it) is
nevertheless sent: the transport is called once and the transport's success
is delivered — no `ValidationFailed` error — because the builder validates
only non-GET JSON bodies. -/
theorem claim_C7_counterexample :
    alwaysInvalid.validate (JsValue.obj []) (JsValue.obj [("a", JsValue.numV 1)]) =
      ["name is required"] ∧
    (exec refreshCfg alwaysInvalid tokenTransport
      (ExecOptions.mk "/u" "GET" (JsValue.obj [("a", JsValue.numV 1)])
        (some (JsValue.obj [])) none)).transportCalls = 1 ∧
    (exec refreshCfg alwaysInvalid tokenTransport
      (ExecOptions.mk "/u" "GET" (JsValue.obj [("a", JsValue.numV 1)])
        (some (JsValue.obj [])) none)).result =
      Except.ok (Success.mk 200
        (JsValue.obj [("access_token", JsValue.strV "NA"),
                      ("refresh_token", JsValue.strV "NR")])) :=
  ⟨rfl, rfl, rfl⟩

/-- C7 amended: for every call intent with a method other than GET and the
default JSON content type, a schema, and a payload the validator rejects,
no transport call occurs and the validator's aggregated message is delivered
through the completion; GET intents skip validation entirely (see the
counterexample). -/
theorem claim_C7_amended (cfg : Configurations) (validation : Validation)
    (transport : Transport) (path m : String) (payload schema : JsValue)
    (errs : List String) (hm : m ≠ "GET")
    (hv : validation.validate schema payload = errs) (hne : errs ≠ []) :
    exec cfg validation transport (ExecOptions.mk path m payload (some schema) none) =
      ExecOutcome.mk (Except.error (validation.generateErrorMessage errs)) 0 payload := by
  have hmg : (m == "GET") = false := beq_eq_false_iff_ne.mpr hm
  have hlen : errs.length > 0 := List.length_pos.mpr hne
  unfold exec buildRequest
  simp only [headerLookup, hmg, if_false, Bool.false_eq_true, JSON_MIME_TYPE, beq_self_eq_true,
    if_true, hv]
  rw [if_pos hlen]

/-- C7 witness: a concrete rejected POST is not sent and surfaces the
validator's message. -/
theorem claim_C7_amended_witness :
    exec freshCfg alwaysInvalid tokenTransport
      (ExecOptions.mk "/u" "POST" (JsValue.obj []) (some (JsValue.obj [])) none) =
      ExecOutcome.mk
        (Except.error (alwaysInvalid.generateErrorMessage ["name is required"])) 0
        (JsValue.obj []) :=
  claim_C7_amended freshCfg alwaysInvalid tokenTransport "/u" "POST" (JsValue.obj [])
    (JsValue.obj []) ["name is required"] (by decide) rfl (by decide)

/-- C9 counterexample: a 404 response whose body HAS a `message` field
holding the empty string is reported as `Unknown Error`, not as that
present field's value, because the code tests the field for truthiness, not
presence: the claim's rule `specBodyMessage` disagrees with the delivered
message. -/
theorem claim_C9_counterexample :
    (exec freshCfg alwaysValid emptyMessageTransport
      (ExecOptions.mk "/u" "GET" (JsValue.obj []) none none)).result =
      Except.error "Unknown Error" ∧
    specBodyMessage (JsValue.obj [("message", JsValue.strV "")]) = "" ∧
    ("Unknown Error" : String) ≠ "" :=
  ⟨rfl, rfl, by decide⟩

/-- C9 amended: for every response the executor receives, a status outside
[200, 300) is delivered as an error whose message is the body's `message`
field when that field is truthy (present and non-empty), else
`Unknown Error`; a status inside [200, 300) is delivered as the success
`{status, body}`. -/
theorem claim_C9_amended (cfg : Configurations) (validation : Validation)
    (path : String) (payload body : JsValue) (statusCode : Int) :
    (statusCode < 200 ∨ 300 ≤ statusCode →
      (exec cfg validation (fun _ => TransportOutcome.resp statusCode body)
        (ExecOptions.mk path "GET" payload none none)).result =
        Except.error
          (if jsTruthy (jsGetField body "message") then jsToString (jsGetField body "message")
           else "Unknown Error")) ∧
    (200 ≤ statusCode → statusCode < 300 →
      (exec cfg validation (fun _ => TransportOutcome.resp statusCode body)
        (ExecOptions.mk path "GET" payload none none)).result =
        Except.ok (Success.mk statusCode body)) := by
  constructor
  · intro h
    unfold exec buildRequest
    simp only [beq_self_eq_true, if_true]
    rw [if_pos h]
    rfl
  · intro h1 h2
    unfold exec buildRequest
    simp only [beq_self_eq_true, if_true]
    rw [if_neg (by omega)]

/-- C6 counterexample: on the template `/users/:id2` the code extracts the
placeholder `:id` — the regex's character class has no digits, so the digit
terminates the name — whereas the claim's pattern (`specPathParams`, with
digits) extracts `:id2`. -/
theorem claim_C6_counterexample :
    pathParams "/users/:id2" = [":id"] ∧
    specPathParams "/users/:id2" = [":id2"] ∧
    ([":id"] : List String) ≠ [":id2"] :=
  ⟨rfl, rfl, by decide⟩

/-- C6 amended: per invocation the extracted placeholders are exactly one
per colon in the template, each consisting of the colon followed by a
(possibly empty) run of letters, pipes, underscores and hyphens — digits are
NOT part of a placeholder name, so `:id2` is extracted as `:id`. -/
theorem claim_C6_amended (s : String) :
    (pathParams s).length = s.data.count ':' ∧
    ∀ p ∈ pathParams s, p.data.head? = some ':' ∧ p.data.tail.all placeholderChar = true := by
  constructor
  · unfold pathParams
    rw [List.length_map]
    exact matchAllAux_length placeholderChar (by decide) s.data.length s.data (Nat.le_refl _)
  · intro p hp
    unfold pathParams at hp
    rcases List.mem_map.mp hp with ⟨l, hl, rfl⟩
    exact matchAllAux_shape placeholderChar s.data.length s.data l hl

/-- C6 witness: the amended characterisation evaluated on `/users/:id2` and
its extracted placeholder `:id`. -/
theorem claim_C6_amended_witness :
    (pathParams "/users/:id2").length = "/users/:id2".data.count ':' ∧
    ((":id" : String).data.head? = some ':' ∧
      (":id" : String).data.tail.all placeholderChar = true) :=
  ⟨(claim_C6_amended "/users/:id2").1,
   (claim_C6_amended "/users/:id2").2 ":id" (by decide)⟩

/-- C3 counterexample: the descriptor `/a/:x/:y` (GET) called with ONE
positional argument and a callback throws `Expecting parameters: x, y`,
naming the filled placeholder `x` as well; the claim says exactly the
unfilled names (here `y` alone, per `specUnfilledNames`) are listed. -/
theorem claim_C3_counterexample :
    (bindCall (Options.mk "/a/:x/:y" "GET") [JsValue.strV "1", JsValue.func 0]).2 =
      BindOutcome.thrown "Expecting parameters: x, y" ∧
    specUnfilledNames "/a/:x/:y" 1 = ["y"] ∧
    ("Expecting parameters: x, y" : String) ≠
      "Expecting parameters: " ++ joinComma (specUnfilledNames "/a/:x/:y" 1) :=
  ⟨rfl, rfl, by decide⟩

/-- C3 amended: for every descriptor with method GET or DELETE and more
path placeholders than supplied positional arguments (before the callback),
the call throws synchronously `Expecting parameters: ` followed by ALL the
template's placeholder names — colon stripped, comma separated, template
order — leaving the descriptor and store untouched and performing no token
acquisition and no transport call. -/
theorem claim_C3_amended (options : Options) (schema : Option JsValue)
    (cfg : Configurations) (validation : Validation) (transport : Transport)
    (pre : List JsValue) (f : Nat)
    (hm : options.method = "GET" ∨ options.method = "DELETE")
    (hlt : pre.length < (pathParams options.path).length) :
    invokeOperation options schema cfg validation transport (pre ++ [JsValue.func f]) =
      InvokeOutcome.mk options
        (some ("Expecting parameters: " ++ stripColons (joinComma (pathParams options.path))))
        none cfg 0 0 := by
  obtain ⟨path, method⟩ := options
  replace hm : method = "GET" ∨ method = "DELETE" := hm
  replace hlt : pre.length < (pathParams path).length := hlt
  have hcb : (pre ++ [JsValue.func f]).getLastD JsValue.undefined = JsValue.func f := by
    simp
  have hmethod : (method == "GET" || method == "DELETE") = true := by
    rcases hm with hm | hm <;> rw [hm] <;> decide
  have hcond : (pathParams path).length + 1 > (pre ++ [JsValue.func f]).length := by
    simp only [List.length_append, List.length_cons, List.length_nil]
    omega
  have hb : bindCall (Options.mk path method) (pre ++ [JsValue.func f]) =
      (Options.mk path method,
       BindOutcome.thrown
         ("Expecting parameters: " ++ stripColons (joinComma (pathParams path)))) := by
    unfold bindCall
    rw [hcb]
    simp only [jsTypeof, bne_self_eq_false, Bool.false_eq_true, if_false, hmethod, if_true]
    rw [if_pos hcond]
  unfold invokeOperation
  rw [hb]

/-- C3 witness: the amended behaviour on `/a/:x/:y` called with one
positional argument. -/
theorem claim_C3_amended_witness :
    invokeOperation (Options.mk "/a/:x/:y" "GET") none freshCfg alwaysValid tokenTransport
      [JsValue.strV "1", JsValue.func 0] =
      InvokeOutcome.mk (Options.mk "/a/:x/:y" "GET")
        (some ("Expecting parameters: " ++
          stripColons (joinComma (pathParams "/a/:x/:y"))))
        none freshCfg 0 0 :=
  claim_C3_amended (Options.mk "/a/:x/:y" "GET") none freshCfg alwaysValid tokenTransport
    [JsValue.strV "1"] 0 (Or.inl rfl) (by decide)

/-- C9 witness: a 404 with a non-empty message surfaces that message; a 204
is delivered as a success. -/
theorem claim_C9_amended_witness :
    (exec freshCfg alwaysValid
      (fun _ => TransportOutcome.resp 404 (JsValue.obj [("message", JsValue.strV "boom")]))
      (ExecOptions.mk "/u" "GET" (JsValue.obj []) none none)).result =
      Except.error
        (if jsTruthy (jsGetField (JsValue.obj [("message", JsValue.strV "boom")]) "message")
         then jsToString (jsGetField (JsValue.obj [("message", JsValue.strV "boom")]) "message")
         else "Unknown Error") ∧
    (exec freshCfg alwaysValid
      (fun _ => TransportOutcome.resp 204 (JsValue.nullV))
      (ExecOptions.mk "/u" "GET" (JsValue.obj []) none none)).result =
      Except.ok (Success.mk 204 JsValue.nullV) :=
  ⟨(claim_C9_amended freshCfg alwaysValid "/u" (JsValue.obj [])
      (JsValue.obj [("message", JsValue.strV "boom")]) 404).1 (by omega),
   (claim_C9_amended freshCfg alwaysValid "/u" (JsValue.obj []) JsValue.nullV 204).2
      (by omega) (by omega)⟩

end RequestManager
